import Mathlib

/-!
Verification of the threshold-evaluation and result-aggregation engine of the
check_routeros monitoring plugin (src/check_routeros.py).

Numbers flowing through the checks are Python ints and floats whose values, in
every scenario considered here, are exact short decimals.  They are embedded as
exact decimal numbers (`PyNum`): an integer mantissa together with a power of
ten.  All arithmetic performed by the plugin on these inputs is exact, so the
embedding agrees with the Python semantics on every value arising below.

The plugin builds on the nagiosplugin library, whose sources are not part of
this repository; the library pieces the claims depend on (Range, the scalar
context tiering, worst-state aggregation, exit codes and the summary subset)
are modelled from the specification, as marked on each definition.  Everything
else is translated directly from src/check_routeros.py.
-/

/-- Exact decimal number: `num / 10 ^ shift`.  Embeds the Python ints and
floats handled by the plugin (all values arising in the checks are exact
decimals). -/
structure PyNum where
  num : ℤ
  shift : ℕ
deriving DecidableEq

/-- Decidable equality of exception results, used to evaluate the fallible
operations of the embedding on concrete inputs. -/
instance exceptDecEq {ε α : Type} [DecidableEq ε] [DecidableEq α] :
    DecidableEq (Except ε α) := fun x y =>
  match x, y with
  | Except.ok a, Except.ok b =>
    if h : a = b then Decidable.isTrue (h ▸ rfl)
    else Decidable.isFalse (fun he => h (Except.ok.inj he))
  | Except.error a, Except.error b =>
    if h : a = b then Decidable.isTrue (h ▸ rfl)
    else Decidable.isFalse (fun he => h (Except.error.inj he))
  | Except.ok _, Except.error _ => Decidable.isFalse (fun he => Except.noConfusion he)
  | Except.error _, Except.ok _ => Decidable.isFalse (fun he => Except.noConfusion he)

/-- Power of ten as an integer. -/
def tenPow : ℕ → ℤ
  | 0 => 1
  | s + 1 => 10 * tenPow s

/-- Normalised decimal: strip factors of ten shared by mantissa and shift, so
that structurally equal `PyNum`s are exactly the numerically equal ones
produced below. -/
def PyNum.norm (n : ℤ) : ℕ → PyNum
  | 0 => ⟨n, 0⟩
  | s + 1 => if n % 10 = 0 then PyNum.norm (n / 10) s else ⟨n, s + 1⟩

/-- Embed an integer. -/
def PyNum.ofInt (n : ℤ) : PyNum := ⟨n, 0⟩

/-- Comparison of exact decimals (Python number comparison). -/
def PyNum.le (a b : PyNum) : Bool :=
  decide (a.num * tenPow b.shift ≤ b.num * tenPow a.shift)

/-- Strict comparison of exact decimals. -/
def PyNum.lt (a b : PyNum) : Bool :=
  decide (a.num * tenPow b.shift < b.num * tenPow a.shift)

/-- Numeric value of a digit run, as produced by the regular expressions of the
source (groups matching a nonempty run of characters 0-9). -/
def digitsToNat (ds : List Char) : ℕ :=
  ds.foldl (fun n c => n * 10 + (c.toNat - 48)) 0

/-- Rendering of a `PyNum` as Python renders the equal float: the mantissa with
a decimal point inserted, at least one integer digit and at least one
fractional digit (`str(500.0) = "500.0"`, `str(16.5) = "16.5"`).  Faithful to
`str(float)` whenever the float value is exactly this decimal, which holds for
every value printed or re-parsed in this development. -/
def pyStr (d : PyNum) : String :=
  let sign := if d.num < 0 then "-" else ""
  let ds := Nat.toDigits 10 d.num.natAbs
  let padded := List.replicate (d.shift + 1 - ds.length) '0' ++ ds
  let ipart := padded.take (padded.length - d.shift)
  let fpart := padded.drop (padded.length - d.shift)
  sign ++ String.mk ipart ++ "." ++ (if fpart.isEmpty then "0" else String.mk fpart)

/-- Parse an optionally signed decimal numeral (digits, optionally followed by
a dot and further digits), the numeric literals accepted inside a threshold
spec.  Returns `none` on anything else. -/
def parseNumCore (cs : List Char) : Option PyNum :=
  let neg := match cs with | '-' :: _ => true | _ => false
  let cs1 := match cs with | '-' :: t => t | _ => cs
  let ds := cs1.takeWhile Char.isDigit
  let r1 := cs1.dropWhile Char.isDigit
  if ds.isEmpty then none
  else
    match r1 with
    | [] =>
      let n : ℤ := digitsToNat ds
      some (PyNum.norm (if neg then -n else n) 0)
    | '.' :: r2 =>
      let fs := r2.takeWhile Char.isDigit
      let r3 := r2.dropWhile Char.isDigit
      if r3.isEmpty then
        let n : ℤ := digitsToNat ds * 10 ^ fs.length + digitsToNat fs
        some (PyNum.norm (if neg then -n else n) fs.length)
      else none
    | _ => none

namespace nagiosplugin

/-- Modelled from the spec: a threshold Range is an inclusion/exclusion
interval `{ start, end, invert }` with optional infinite endpoints; `invert`
means alert when the value falls inside the interval, default means alert when
it falls outside. -/
structure Range where
  invert : Bool
  lo : Option PyNum
  hi : Option PyNum
deriving DecidableEq

/-- Modelled from the spec: `evaluate` of a Range, true when the value is in
the alert zone (outside `[lo, hi]` normally, inside it when inverted). -/
def Range.alert (r : Range) (v : PyNum) : Bool :=
  let inside :=
    (match r.lo with | none => true | some a => PyNum.le a v)
      && (match r.hi with | none => true | some b => PyNum.le v b)
  if r.invert then inside else !inside

/-- Modelled from the spec: Range.parse over the grammar of section 4.1.
An empty spec never alerts; `N` abbreviates `0:N`; a missing or `~` bound is
infinite on that side; a leading `@` inverts; a non-numeric bound or an upper
bound below the lower bound is a ConfigError, reported as an error value. -/
def Range.parse (s : String) : Except String Range :=
  let cs := s.data
  let inv := match cs with | '@' :: _ => true | _ => false
  let cs1 := match cs with | '@' :: t => t | _ => cs
  let left := cs1.takeWhile (fun c => c != ':')
  let rest := cs1.dropWhile (fun c => c != ':')
  match rest with
  | [] =>
    if cs1.isEmpty then Except.ok ⟨inv, none, none⟩
    else
      match parseNumCore cs1 with
      | none => Except.error "invalid range"
      | some n =>
        if n.num < 0 then Except.error "invalid range"
        else Except.ok ⟨inv, some ⟨0, 0⟩, some n⟩
  | _ :: right =>
    let lo? : Except String (Option PyNum) :=
      if left.isEmpty || left = ['~'] then Except.ok none
      else
        match parseNumCore left with
        | none => Except.error "invalid range"
        | some n => Except.ok (some n)
    let hi? : Except String (Option PyNum) :=
      if right.isEmpty || right = ['~'] then Except.ok none
      else
        match parseNumCore right with
        | none => Except.error "invalid range"
        | some n => Except.ok (some n)
    match lo?, hi? with
    | Except.error e, _ => Except.error e
    | _, Except.error e => Except.error e
    | Except.ok lo, Except.ok hi =>
      match lo, hi with
      | some a, some b =>
        if PyNum.lt b a then Except.error "invalid range" else Except.ok ⟨inv, lo, hi⟩
      | _, _ => Except.ok ⟨inv, lo, hi⟩

/-- Modelled from the spec: the four service states of a monitoring plugin. -/
inductive ServiceState
  | ok
  | warn
  | critical
  | unknown
deriving DecidableEq

/-- Modelled from the spec: severity used by worst-state aggregation, ordering
OK < WARNING < CRITICAL with UNKNOWN winning only over OK. -/
def sev : ServiceState → ℕ
  | ServiceState.ok => 0
  | ServiceState.unknown => 1
  | ServiceState.warn => 2
  | ServiceState.critical => 3

/-- Modelled from the spec: the worse of two states under `sev`. -/
def joinState (a b : ServiceState) : ServiceState :=
  if sev a < sev b then b else a

/-- Modelled from the spec: reduce the per-metric results to the overall
verdict, the maximum-severity state. -/
def overallState (l : List ServiceState) : ServiceState :=
  l.foldl joinState ServiceState.ok

/-- Modelled from the spec: the conventional monitoring-plugin process exit
code of each state. -/
def exitCode : ServiceState → ℕ
  | ServiceState.ok => 0
  | ServiceState.warn => 1
  | ServiceState.critical => 2
  | ServiceState.unknown => 3

/-- Modelled from the spec: ScalarContext tiering; CRITICAL if the critical
Range matches, else WARNING if the warning Range matches, else OK; an absent
Range never matches. -/
def scalarEvaluate (warning critical : Option Range) (v : PyNum) : ServiceState :=
  if (match critical with | some r => r.alert v | none => false) then
    ServiceState.critical
  else if (match warning with | some r => r.alert v | none => false) then
    ServiceState.warn
  else ServiceState.ok

/-- Metric sample produced by a probe: name, value, optional unit of measure
and optional min/max.  The value is optional because the ping probe can yield
a metric whose value the rtt parser failed to extract. -/
structure Metric where
  name : String
  value : Option PyNum
  uom : Option String
  min : Option PyNum
  max : Option PyNum
deriving DecidableEq

/-- Performance datum: value, unit, warning/critical thresholds and min/max,
as handed to the machine-readable output. -/
structure Performance where
  label : String
  value : Option PyNum
  uom : Option String
  warning : Option Range
  critical : Option Range
  min : Option PyNum
  max : Option PyNum
deriving DecidableEq

end nagiosplugin

open nagiosplugin

/-- The replacement function `replace` of `ScalarPercentContext._prepare_ranges`:
for a matched token with value group `v` and unit group `u`, return
`str(float(total) * (float(v) / 100))` when the unit is `%`, otherwise raise
`ValueError("Unable to convert type")`.  The arithmetic is exact decimal
arithmetic, which agrees with the Python float computation on every value
arising here. -/
def replaceTok (total : PyNum) (v : ℕ) (u : Char) : Except String String :=
  if u = '%' then
    Except.ok (pyStr (PyNum.norm (total.num * v) (total.shift + 2)))
  else Except.error "Unable to convert type"

/-- Substitution loop of the regex `(?P<value>\d+)(?P<unit>[%])` over the spec
string: each maximal digit run immediately followed by the character `%` (the
only character in the unit class) is replaced through `replaceTok`; everything
else is copied unchanged.  The fuel argument strictly exceeds the number of
characters, so it never runs out. -/
def subFuel (total : PyNum) : ℕ → List Char → Except String (List Char)
  | 0, _ => Except.ok []
  | _ + 1, [] => Except.ok []
  | f + 1, c :: rest =>
    if c.isDigit then
      let ds := (c :: rest).takeWhile Char.isDigit
      let tail := (c :: rest).dropWhile Char.isDigit
      match tail with
      | '%' :: tail2 =>
        match replaceTok total (digitsToNat ds) '%' with
        | Except.error e => Except.error e
        | Except.ok s =>
          match subFuel total f tail2 with
          | Except.error e => Except.error e
          | Except.ok r => Except.ok (s.data ++ r)
      | _ =>
        match subFuel total f tail with
        | Except.error e => Except.error e
        | Except.ok r => Except.ok (ds ++ r)
    else
      match subFuel total f rest with
      | Except.error e => Except.error e
      | Except.ok r => Except.ok (c :: r)

/-- `regex.sub(replace, spec)` of `ScalarPercentContext._prepare_ranges`. -/
def percentSub (total : PyNum) (s : String) : Except String String :=
  match subFuel total (s.data.length + 1) s.data with
  | Except.error e => Except.error e
  | Except.ok cs => Except.ok (String.mk cs)

/-- State of a `ScalarPercentContext`: the raw warning/critical spec strings,
the name of the resource attribute supplying the total, and the lazily
resolved Ranges (initially `None`). -/
structure ScalarPercentContext where
  warningSpec : String
  criticalSpec : String
  totalName : String
  warning : Option Range
  critical : Option Range
deriving DecidableEq

/-- `ScalarPercentContext._prepare_ranges`: when both Ranges are already
resolved, return unchanged; otherwise substitute percent tokens against the
resource total, print both substituted spec strings, then parse them into the
warning and critical Ranges.  Returns the updated context, the lines printed
to stdout, and the raised exception if any; on an exception the partial state
updates made before the raise are kept, as in the source. -/
def prepareRanges (ctx : ScalarPercentContext) (totalValue : PyNum) :
    ScalarPercentContext × List String × Option String :=
  if ctx.warning.isSome && ctx.critical.isSome then (ctx, [], none)
  else
    match percentSub totalValue ctx.warningSpec with
    | Except.error e => (ctx, [], some e)
    | Except.ok w =>
      match percentSub totalValue ctx.criticalSpec with
      | Except.error e => (ctx, [w], some e)
      | Except.ok c =>
        match Range.parse w with
        | Except.error e => (ctx, [w, c], some e)
        | Except.ok rw =>
          match Range.parse c with
          | Except.error e => ({ ctx with warning := some rw }, [w, c], some e)
          | Except.ok rc =>
            ({ ctx with warning := some rw, critical := some rc }, [w, c], none)

/-- `ScalarPercentContext.evaluate`: prepare the ranges, then apply the
ScalarContext tiering to the metric value.  A metric without a value would
make the underlying comparison raise, as in Python. -/
def spEvaluate (ctx : ScalarPercentContext) (totalValue : PyNum) (m : Metric) :
    ScalarPercentContext × List String × Except String ServiceState :=
  let pr := prepareRanges ctx totalValue
  match pr.2.2 with
  | some e => (pr.1, pr.2.1, Except.error e)
  | none =>
    match m.value with
    | none => (pr.1, pr.2.1, Except.error "TypeError")
    | some v => (pr.1, pr.2.1, Except.ok (scalarEvaluate pr.1.warning pr.1.critical v))

/-- `ScalarPercentContext.performance`: prepare the ranges, then build the
performance datum from the metric and the resolved thresholds. -/
def spPerformance (ctx : ScalarPercentContext) (totalValue : PyNum) (m : Metric) :
    ScalarPercentContext × List String × Except String Performance :=
  let pr := prepareRanges ctx totalValue
  match pr.2.2 with
  | some e => (pr.1, pr.2.1, Except.error e)
  | none =>
    (pr.1, pr.2.1,
      Except.ok ⟨m.name, m.value, m.uom, pr.1.warning, pr.1.critical, m.min, m.max⟩)

/-- `SystemMemoryResource.probe`: from the device fields free-memory and
total-memory, yield the metric `free` and then the metric `used`, the latter
valued `total - free`, both with unit B, min 0 and max the total. -/
def memoryProbe (memoryFree memoryTotal : ℤ) : List Metric :=
  [⟨"free", some (PyNum.ofInt memoryFree), some "B", some (PyNum.ofInt 0),
      some (PyNum.ofInt memoryTotal)⟩,
    ⟨"used", some (PyNum.ofInt (memoryTotal - memoryFree)), some "B", some (PyNum.ofInt 0),
      some (PyNum.ofInt memoryTotal)⟩]

/-- The anchored match of `(?P<hours>\d+)h(?P<minutes>\d+)m(?P<seconds>\d+)s`
against the uptime string (`re.match`: anchored at the start, trailing
characters ignored), returning the uptime in seconds on success. -/
def parseUptime (s : String) : Option ℕ :=
  let cs := s.data
  let hs := cs.takeWhile Char.isDigit
  let r1 := cs.dropWhile Char.isDigit
  if hs.isEmpty then none
  else
    match r1 with
    | 'h' :: r2 =>
      let ms := r2.takeWhile Char.isDigit
      let r3 := r2.dropWhile Char.isDigit
      if ms.isEmpty then none
      else
        match r3 with
        | 'm' :: r4 =>
          let ss := r4.takeWhile Char.isDigit
          let r5 := r4.dropWhile Char.isDigit
          if ss.isEmpty then none
          else
            match r5 with
            | 's' :: _ =>
              some (digitsToNat hs * 60 * 60 + digitsToNat ms * 60 + digitsToNat ss)
            | _ => none
        | _ => none
    | _ => none

/-- `SystemUptimeResource.probe`: parse the uptime string; on failure raise
`ValueError("Unable to parse uptime")`, otherwise yield the uptime metric in
seconds. -/
def uptimeProbe (uptime : String) : Except String Metric :=
  match parseUptime uptime with
  | none => Except.error "Unable to parse uptime"
  | some secs =>
    Except.ok ⟨"uptime", some (PyNum.ofInt secs), some "s", some (PyNum.ofInt 0), none⟩

/-- Outcome of one check run as handed to the monitoring frontend: overall
state, process exit code, the metric names feeding the one-line summary, and
the failure message when the run failed. -/
structure CheckOutcome where
  state : ServiceState
  exitCode : ℕ
  summaryMetrics : List String
  message : Option String
deriving DecidableEq

/-- The `system.uptime` command: run the uptime probe and evaluate the metric
through a plain ScalarContext with no thresholds.  Modelled from the spec for
the parts outside this repository: a probe exception is surfaced as overall
UNKNOWN with the message and exit code 3. -/
def runUptimeCheck (uptime : String) : CheckOutcome :=
  match uptimeProbe uptime with
  | Except.error e => ⟨ServiceState.unknown, 3, [], some e⟩
  | Except.ok m =>
    match m.value with
    | none => ⟨ServiceState.unknown, 3, [], some "TypeError"⟩
    | some v =>
      let st := scalarEvaluate none none v
      let overall := overallState [st]
      ⟨overall, exitCode overall, ["uptime"], none⟩

/-- The `system.memory` command in its default `--used` form: probe free and
used, evaluate `free` through a thresholdless ScalarContext and `used` through
a `ScalarPercentContext` resolved against the resource total.  Modelled from
the spec for the parts outside this repository: the overall verdict is the
worst state, the exit code follows the standard mapping, the summary is built
from the configured result name `used` when OK and from the most significant
results otherwise, and an exception during the run is surfaced as UNKNOWN with
exit code 3. -/
def runSystemMemoryUsed (warning critical : String) (memoryFree memoryTotal : ℤ) :
    CheckOutcome :=
  let ctxUsed : ScalarPercentContext := ⟨warning, critical, "memory_total", none, none⟩
  match memoryProbe memoryFree memoryTotal with
  | [mFree, mUsed] =>
    match mFree.value with
    | none => ⟨ServiceState.unknown, 3, [], some "TypeError"⟩
    | some fv =>
      let freeState := scalarEvaluate none none fv
      let evalUsed := spEvaluate ctxUsed (PyNum.ofInt memoryTotal) mUsed
      match evalUsed.2.2 with
      | Except.error e => ⟨ServiceState.unknown, 3, [], some e⟩
      | Except.ok usedState =>
        let results : List (String × ServiceState) :=
          [("free", freeState), ("used", usedState)]
        let overall := overallState (results.map Prod.snd)
        let summary :=
          if overall = ServiceState.ok then ["used"]
          else (results.filter (fun p => p.snd = overall)).map Prod.fst
        ⟨overall, exitCode overall, summary, none⟩
  | _ => ⟨ServiceState.unknown, 3, [], some "probe"⟩

/-- The response record of the `/ping` command: the always-present counters
and the rtt/size/ttl fields, which the device omits when nothing was
received. -/
structure PingResult where
  packetLoss : ℤ
  sent : ℤ
  received : ℤ
  minRtt : Option String
  maxRtt : Option String
  avgRtt : Option String
  size : Option ℤ
  ttl : Option ℤ

/-- Dictionary access `result[key]`: raises KeyError when the field is
absent. -/
def fetchField {α : Type} (key : String) : Option α → Except String α
  | none => Except.error ("KeyError " ++ key)
  | some v => Except.ok v

/-- The helper `strip_time` of `ToolPingCheck.probe`: match
`^(?P<time>[0-9]+)(?P<uom>.*)$`; on a leading digit run return the number and
the remaining unit string, otherwise `(None, None)`. -/
def stripTime (s : String) : Option ℕ × Option String :=
  let ds := s.data.takeWhile Char.isDigit
  let rest := s.data.dropWhile Char.isDigit
  if ds.isEmpty then (none, none)
  else (some (digitsToNat ds), some (String.mk rest))

/-- `ToolPingCheck.probe` applied to the final ping response: always yield
packet_loss, sent and received; only when `received > 0` also fetch the
rtt/size/ttl fields (raising KeyError if absent) and yield the five further
metrics.  `_max_packages` is 1. -/
def pingProbe (r : PingResult) : Except String (List Metric) :=
  let maxPackages : ℤ := 1
  let base : List Metric :=
    [⟨"packet_loss", some (PyNum.ofInt r.packetLoss), some "%", some (PyNum.ofInt 0),
        some (PyNum.ofInt 100)⟩,
      ⟨"sent", some (PyNum.ofInt r.sent), none, some (PyNum.ofInt 0),
        some (PyNum.ofInt maxPackages)⟩,
      ⟨"received", some (PyNum.ofInt r.received), none, some (PyNum.ofInt 0),
        some (PyNum.ofInt maxPackages)⟩]
  if 0 < r.received then
    match fetchField "min-rtt" r.minRtt with
    | Except.error e => Except.error e
    | Except.ok minS =>
      match fetchField "max-rtt" r.maxRtt with
      | Except.error e => Except.error e
      | Except.ok maxS =>
        match fetchField "avg-rtt" r.avgRtt with
        | Except.error e => Except.error e
        | Except.ok avgS =>
          match fetchField "size" r.size with
          | Except.error e => Except.error e
          | Except.ok sz =>
            match fetchField "ttl" r.ttl with
            | Except.error e => Except.error e
            | Except.ok tl =>
              Except.ok (base ++
                [⟨"rtt_min", ((stripTime minS).1.map fun n => PyNum.ofInt n), none,
                    some (PyNum.ofInt 0), none⟩,
                  ⟨"rtt_max", ((stripTime maxS).1.map fun n => PyNum.ofInt n), none,
                    some (PyNum.ofInt 0), none⟩,
                  ⟨"rtt_avg", ((stripTime avgS).1.map fun n => PyNum.ofInt n), none,
                    some (PyNum.ofInt 0), none⟩,
                  ⟨"size", some (PyNum.ofInt sz), none, none, none⟩,
                  ⟨"ttl", some (PyNum.ofInt tl), none, some (PyNum.ofInt 0),
                    some (PyNum.ofInt 255)⟩])
  else Except.ok base

/-- A `ScalarPercentContext` whose Ranges are already resolved, used to
instantiate the memoization statement. -/
def spcResolvedExample : ScalarPercentContext :=
  ⟨"50%", "80%", "memory_total", some ⟨false, some ⟨0, 0⟩, some ⟨500, 0⟩⟩,
    some ⟨false, some ⟨0, 0⟩, some ⟨800, 0⟩⟩⟩

/-- A concrete used-memory metric, used to instantiate the memoization
statement. -/
def usedMetricExample : Metric :=
  ⟨"used", some ⟨600, 0⟩, some "B", some ⟨0, 0⟩, some ⟨1000, 0⟩⟩

/-- A ping response with nothing received and all optional fields absent, used
to instantiate the ping statement. -/
def pingZeroExample : PingResult :=
  ⟨0, 1, 0, none, none, none, none, none⟩


theorem joinState_eq_critical (a b : ServiceState) :
    joinState a b = ServiceState.critical ↔
      (a = ServiceState.critical ∨ ServiceState.critical = b) := by
  cases a <;> cases b <;> decide

theorem joinState_eq_warn (a b : ServiceState) :
    joinState a b = ServiceState.warn ↔
      ((a = ServiceState.warn ∨ ServiceState.warn = b) ∧
        ¬a = ServiceState.critical ∧ ¬ServiceState.critical = b) := by
  cases a <;> cases b <;> decide

theorem joinState_eq_unknown (a b : ServiceState) :
    joinState a b = ServiceState.unknown ↔
      ((a = ServiceState.unknown ∨ ServiceState.unknown = b) ∧
        ¬a = ServiceState.critical ∧ ¬ServiceState.critical = b ∧
        ¬a = ServiceState.warn ∧ ¬ServiceState.warn = b) := by
  cases a <;> cases b <;> decide

theorem foldl_joinState_eq_critical (l : List ServiceState) :
    ∀ a, l.foldl joinState a = ServiceState.critical ↔
      (a = ServiceState.critical ∨ ServiceState.critical ∈ l) := by
  induction l with
  | nil => intro a; cases a <;> decide
  | cons b t ih =>
    intro a
    simp only [List.foldl_cons, ih, joinState_eq_critical, List.mem_cons]
    tauto

theorem foldl_joinState_eq_warn (l : List ServiceState) :
    ∀ a, l.foldl joinState a = ServiceState.warn ↔
      ((a = ServiceState.warn ∨ ServiceState.warn ∈ l) ∧
        ¬a = ServiceState.critical ∧ ServiceState.critical ∉ l) := by
  induction l with
  | nil => intro a; cases a <;> decide
  | cons b t ih =>
    intro a
    simp only [List.foldl_cons, ih, joinState_eq_warn, joinState_eq_critical,
      List.mem_cons, ne_eq, not_or]
    tauto

theorem foldl_joinState_eq_unknown (l : List ServiceState) :
    ∀ a, l.foldl joinState a = ServiceState.unknown ↔
      ((a = ServiceState.unknown ∨ ServiceState.unknown ∈ l) ∧
        ¬a = ServiceState.critical ∧ ServiceState.critical ∉ l ∧
        ¬a = ServiceState.warn ∧ ServiceState.warn ∉ l) := by
  induction l with
  | nil => intro a; cases a <;> decide
  | cons b t ih =>
    intro a
    simp only [List.foldl_cons, ih, joinState_eq_unknown, joinState_eq_warn,
      joinState_eq_critical, List.mem_cons, ne_eq, not_or]
    tauto

/-- Claim C1, counterexample: run as stated in the claim, with the literal
option values warning 70 and critical 90 (no percent suffix), the used metric
of 800000000 out of 1000000000 bytes is compared against the absolute byte
thresholds 70 and 90, so the overall status is CRITICAL with exit code 2, not
WARNING with exit code 1. -/
theorem claimC1_counterexample :
    (runSystemMemoryUsed "70" "90" 200000000 1000000000).state = ServiceState.critical
    ∧ (runSystemMemoryUsed "70" "90" 200000000 1000000000).state ≠ ServiceState.warn
    ∧ (runSystemMemoryUsed "70" "90" 200000000 1000000000).exitCode = 2
    ∧ (runSystemMemoryUsed "70" "90" 200000000 1000000000).exitCode ≠ 1 := by
  decide

/-- Claim C1, amended: with the percent-suffixed thresholds warning 70% and
critical 90%, the same probe values (free 200000000 of total 1000000000, so
used is 80 percent) give overall WARNING, a summary fed by the used metric,
and exit code 1. -/
theorem claimC1_theorem :
    runSystemMemoryUsed "70%" "90%" 200000000 1000000000 =
      ⟨ServiceState.warn, 1, ["used"], none⟩
    ∧ "used" ∈ (runSystemMemoryUsed "70%" "90%" 200000000 1000000000).summaryMetrics := by
  decide

/-- Claim C2: the overall verdict is the maximum-severity state, CRITICAL
whenever a CRITICAL result exists, else WARNING whenever a WARNING result
exists, with UNKNOWN winning only when neither exists; in particular
[OK, WARNING, OK, UNKNOWN] aggregates to WARNING and [OK, UNKNOWN, OK] to
UNKNOWN. -/
theorem claimC2_theorem :
    (∀ l : List ServiceState,
        (overallState l = ServiceState.critical ↔ ServiceState.critical ∈ l)
        ∧ (overallState l = ServiceState.warn ↔
            (ServiceState.warn ∈ l ∧ ServiceState.critical ∉ l))
        ∧ (overallState l = ServiceState.unknown ↔
            (ServiceState.unknown ∈ l ∧ ServiceState.warn ∉ l ∧
              ServiceState.critical ∉ l)))
    ∧ overallState [ServiceState.ok, ServiceState.warn, ServiceState.ok,
        ServiceState.unknown] = ServiceState.warn
    ∧ overallState [ServiceState.ok, ServiceState.unknown, ServiceState.ok] =
        ServiceState.unknown := by
  refine ⟨fun l => ⟨?_, ?_, ?_⟩, by decide, by decide⟩
  · rw [overallState, foldl_joinState_eq_critical]; simp
  · rw [overallState, foldl_joinState_eq_warn]; simp
  · rw [overallState, foldl_joinState_eq_unknown]; simp; tauto

/-- Claim C3: with total 1000, the percent tokens of warning 50% and critical
80% are replaced by str(total times the integer over 100), giving the spec
strings 500.0 and 800.0, which parse to the same Ranges as 500 and 800; the
resulting evaluation of a metric valued 600 is WARNING and not CRITICAL. -/
theorem claimC3_theorem :
    percentSub ⟨1000, 0⟩ "50%" = Except.ok "500.0"
    ∧ percentSub ⟨1000, 0⟩ "80%" = Except.ok "800.0"
    ∧ Range.parse "500.0" = Range.parse "500"
    ∧ Range.parse "800.0" = Range.parse "800"
    ∧ (spEvaluate ⟨"50%", "80%", "memory_total", none, none⟩ ⟨1000, 0⟩
        ⟨"used", some ⟨600, 0⟩, none, none, none⟩).2.2 = Except.ok ServiceState.warn
    ∧ (spEvaluate ⟨"50%", "80%", "memory_total", none, none⟩ ⟨1000, 0⟩
        ⟨"used", some ⟨600, 0⟩, none, none, none⟩).2.2 ≠
          Except.ok ServiceState.critical := by
  decide

/-- Claim C4: the substitution pattern only matches a digit run followed by
the character %, so a token with any other unit suffix such as 50M is passed
through substitution unchanged with no error raised there — the unsupported
unit branch of the replacement function is unreachable — and failure only
occurs afterwards, when Range parsing rejects the raw string. -/
theorem claimC4_theorem :
    percentSub ⟨1000, 0⟩ "50M" = Except.ok "50M"
    ∧ percentSub ⟨1000, 0⟩ "50M" ≠ Except.error "Unable to convert type"
    ∧ Range.parse "50M" = Except.error "invalid range" := by
  decide

/-- Claim C5: once both Ranges of a ScalarPercentContext are resolved,
preparation returns the context unchanged with no output and no error, so
evaluate and performance no longer depend on the resource total (stale
thresholds persist when the total changes) and repeated performance calls
after an evaluate yield identical output. -/
theorem claimC5_theorem (ctx : ScalarPercentContext) (t t' : PyNum) (m : Metric)
    (hw : ctx.warning ≠ none) (hc : ctx.critical ≠ none) :
    prepareRanges ctx t = (ctx, [], none)
    ∧ spEvaluate ctx t m = spEvaluate ctx t' m
    ∧ spPerformance ctx t m = spPerformance ctx t' m
    ∧ (spEvaluate ctx t m).1 = ctx
    ∧ spPerformance (spEvaluate ctx t m).1 t m = spPerformance ctx t m := by
  have hw' : ctx.warning.isSome = true := Option.ne_none_iff_isSome.mp hw
  have hc' : ctx.critical.isSome = true := Option.ne_none_iff_isSome.mp hc
  have hprep : ∀ u : PyNum, prepareRanges ctx u = (ctx, [], none) := by
    intro u
    simp [prepareRanges, hw', hc']
  have heval : ∀ u : PyNum, spEvaluate ctx u m =
      (ctx, [],
        match m.value with
        | none => Except.error "TypeError"
        | some v => Except.ok (scalarEvaluate ctx.warning ctx.critical v)) := by
    intro u
    cases hm : m.value <;> simp [spEvaluate, hprep, hm]
  have hperf : ∀ u : PyNum, spPerformance ctx u m =
      (ctx, [],
        Except.ok ⟨m.name, m.value, m.uom, ctx.warning, ctx.critical, m.min, m.max⟩) := by
    intro u
    simp [spPerformance, hprep]
  have hfst : (spEvaluate ctx t m).1 = ctx := by rw [heval]
  exact ⟨hprep t, by rw [heval, heval], by rw [hperf, hperf], hfst, by rw [hfst]⟩

/-- Claim C5, witness: the memoization statement instantiated at a resolved
context, a concrete metric and the totals 1000 and 2000. -/
theorem claimC5_witness :
    spcResolvedExample.warning ≠ none ∧ spcResolvedExample.critical ≠ none
    ∧ (prepareRanges spcResolvedExample ⟨1000, 0⟩ = (spcResolvedExample, [], none)
      ∧ spEvaluate spcResolvedExample ⟨1000, 0⟩ usedMetricExample =
          spEvaluate spcResolvedExample ⟨2000, 0⟩ usedMetricExample
      ∧ spPerformance spcResolvedExample ⟨1000, 0⟩ usedMetricExample =
          spPerformance spcResolvedExample ⟨2000, 0⟩ usedMetricExample
      ∧ (spEvaluate spcResolvedExample ⟨1000, 0⟩ usedMetricExample).1 = spcResolvedExample
      ∧ spPerformance (spEvaluate spcResolvedExample ⟨1000, 0⟩ usedMetricExample).1
          ⟨1000, 0⟩ usedMetricExample =
          spPerformance spcResolvedExample ⟨1000, 0⟩ usedMetricExample) :=
  ⟨by decide, by decide,
    claimC5_theorem spcResolvedExample ⟨1000, 0⟩ ⟨2000, 0⟩ usedMetricExample
      (by decide) (by decide)⟩

/-- Claim C6, counterexample: for the Range parsed from 10:20, evaluate at 15
does not return true — 15 lies inside the interval, so it is not in the alert
zone. -/
theorem claimC6_counterexample :
    (Range.parse "10:20").map (fun r => r.alert ⟨15, 0⟩) ≠ Except.ok true := by
  decide

/-- Claim C6, amended: for the Range parsed from 10:20, with true meaning the
value is in the alert zone (alert if value < 10 or value > 20), evaluate
returns false at 15 and true at 5 and at 25. -/
theorem claimC6_theorem :
    (Range.parse "10:20").map (fun r => r.alert ⟨15, 0⟩) = Except.ok false
    ∧ (Range.parse "10:20").map (fun r => r.alert ⟨5, 0⟩) = Except.ok true
    ∧ (Range.parse "10:20").map (fun r => r.alert ⟨25, 0⟩) = Except.ok true := by
  decide

/-- Claim C7: context evaluation is not free of stdout output — the first
evaluate call of a ScalarPercentContext prints the two substituted threshold
spec strings, here 500.0 and 800.0, to stdout. -/
theorem claimC7_theorem :
    (spEvaluate ⟨"50%", "80%", "memory_total", none, none⟩ ⟨1000, 0⟩
      ⟨"used", some ⟨600, 0⟩, none, none, none⟩).2.1 = ["500.0", "800.0"]
    ∧ (spEvaluate ⟨"50%", "80%", "memory_total", none, none⟩ ⟨1000, 0⟩
        ⟨"used", some ⟨600, 0⟩, none, none, none⟩).2.1 ≠ ([] : List String) := by
  decide

/-- Claim C8: whenever the uptime string does not match the anchored pattern
hours h minutes m seconds s, the probe raises, and the check surfaces overall
UNKNOWN with the underlying message and exit code 3. -/
theorem claimC8_theorem (s : String) (h : parseUptime s = none) :
    runUptimeCheck s =
      ⟨ServiceState.unknown, 3, [], some "Unable to parse uptime"⟩ := by
  simp [runUptimeCheck, uptimeProbe, h]

/-- Claim C8, witness: the malformed uptime string "up 3 days" does not match
the pattern and yields UNKNOWN with exit code 3. -/
theorem claimC8_witness :
    parseUptime "up 3 days" = none
    ∧ runUptimeCheck "up 3 days" =
        ⟨ServiceState.unknown, 3, [], some "Unable to parse uptime"⟩ :=
  ⟨by decide, claimC8_theorem "up 3 days" (by decide)⟩

/-- Claim C9: for every ping response with received = 0, the probe succeeds
and emits exactly the metrics packet_loss, sent and received, in that order,
withholding the rtt, size and ttl metrics and never touching the absent
fields. -/
theorem claimC9_theorem (r : PingResult) (h : r.received = 0) :
    pingProbe r =
      Except.ok
        [⟨"packet_loss", some (PyNum.ofInt r.packetLoss), some "%", some (PyNum.ofInt 0),
            some (PyNum.ofInt 100)⟩,
          ⟨"sent", some (PyNum.ofInt r.sent), none, some (PyNum.ofInt 0),
            some (PyNum.ofInt 1)⟩,
          ⟨"received", some (PyNum.ofInt r.received), none, some (PyNum.ofInt 0),
            some (PyNum.ofInt 1)⟩] := by
  simp [pingProbe, h]

/-- Claim C9, witness: the statement instantiated at a response with received
0 and every optional field absent. -/
theorem claimC9_witness :
    pingZeroExample.received = 0
    ∧ pingProbe pingZeroExample =
        Except.ok
          [⟨"packet_loss", some (PyNum.ofInt pingZeroExample.packetLoss), some "%",
              some (PyNum.ofInt 0), some (PyNum.ofInt 100)⟩,
            ⟨"sent", some (PyNum.ofInt pingZeroExample.sent), none, some (PyNum.ofInt 0),
              some (PyNum.ofInt 1)⟩,
            ⟨"received", some (PyNum.ofInt pingZeroExample.received), none,
              some (PyNum.ofInt 0), some (PyNum.ofInt 1)⟩] :=
  ⟨rfl, claimC9_theorem pingZeroExample rfl⟩

/-- Claim C10: the memory probe yields exactly the metric free followed by
the metric used, used valued total minus free, both with unit B, min 0 and
max the total; free plus used equals the reported total. -/
theorem claimC10_theorem (memoryFree memoryTotal : ℤ) :
    memoryProbe memoryFree memoryTotal =
      [⟨"free", some (PyNum.ofInt memoryFree), some "B", some (PyNum.ofInt 0),
          some (PyNum.ofInt memoryTotal)⟩,
        ⟨"used", some (PyNum.ofInt (memoryTotal - memoryFree)), some "B",
          some (PyNum.ofInt 0), some (PyNum.ofInt memoryTotal)⟩]
    ∧ memoryFree + (memoryTotal - memoryFree) = memoryTotal :=
  ⟨rfl, by ring⟩
